import Mathlib

/-!
# Verification of the todo-backend task/auth flows

Shallow embedding of the authoritative backend (`backend/app`): the SQLModel
tables `users` and `tasks` become Lean structures, the database becomes a
`List` of rows, and each FastAPI route handler becomes a pure function over
that state returning `Except`-style results.  Identifiers (`uuid4`) and clock
readings (`datetime.utcnow`) are non-deterministic in the source, so they are
passed in as explicit parameters; timestamps are modelled as `Nat` ticks.
HTTP error responses are modelled as a status code plus the exact detail
string raised by the handler.
-/

namespace TodoApp

/-- Row of the `tasks` table (`app/models/task.py`).  `id`/`user_id` are UUIDs
in the source, modelled as `Nat`; timestamps modelled as `Nat` ticks. -/
structure Task where
  id : Nat
  title : String
  description : Option String
  completed : Bool
  user_id : Nat
  created_at : Nat
  updated_at : Nat
deriving Repr, DecidableEq

/-- An `HTTPException(status_code, detail)` raised by a route handler. -/
structure HttpError where
  status : Nat
  detail : String
deriving Repr, DecidableEq

/-- The `HTTPException(404, "Task not found")` from the task routes. -/
def taskNotFound : HttpError := ⟨404, "Task not found"⟩

/-- The `HTTPException(403, "Access denied: task belongs to another user")`. -/
def taskForbidden : HttpError := ⟨403, "Access denied: task belongs to another user"⟩

/-- The `TaskCreateRequest` (`app/models/requests.py`): title, optional
description, completed defaulting to false.  There is no `user_id` field. -/
structure TaskCreateRequest where
  title : String
  description : Option String := none
  completed : Bool := false
deriving Repr, DecidableEq

/-- The `TaskUpdateRequest` (`app/models/requests.py`): all three fields optional.
Pydantic parses both an omitted field and an explicit JSON `null` to Python
`None`, so both are `none` here. -/
structure TaskUpdateRequest where
  title : Option String := none
  description : Option String := none
  completed : Option Bool := none
deriving Repr, DecidableEq

/-- The `select(Task).where(Task.id == task_id)` followed by `.first()`:
lookup by primary key only, with no ownership filter. -/
def findTask (db : List Task) (task_id : Nat) : Option Task :=
  db.find? (fun t => t.id == task_id)

/-- The `get_task` (`app/routes/tasks.py`): fetch by id, 404 if absent,
then 403 if the owner differs from the authenticated user. -/
def get_task (db : List Task) (task_id : Nat) (current_user_id : Nat) :
    Except HttpError Task :=
  match findTask db task_id with
  | none => .error taskNotFound
  | some task =>
    if task.user_id != current_user_id then .error taskForbidden
    else .ok task

/-- The field-by-field partial update in `update_task`: each
`if request.x is not None: task.x = request.x` statement. -/
def applyUpdate (task : Task) (request : TaskUpdateRequest) : Task :=
  { task with
    title := match request.title with
      | some v => v
      | none => task.title
    description := match request.description with
      | some v => some v
      | none => task.description
    completed := match request.completed with
      | some v => v
      | none => task.completed }

/-- The `update_task` (`app/routes/tasks.py`): fetch by id, 404 if absent, 403 if
foreign, otherwise apply the partial update and commit the row.  Returns the
handler result together with the resulting table state. -/
def update_task (db : List Task) (task_id : Nat) (request : TaskUpdateRequest)
    (current_user_id : Nat) : Except HttpError Task × List Task :=
  match findTask db task_id with
  | none => (.error taskNotFound, db)
  | some task =>
    if task.user_id != current_user_id then (.error taskForbidden, db)
    else
      let updated := applyUpdate task request
      (.ok updated, db.map (fun t => if t.id == task_id then updated else t))

/-- The `delete_task` (`app/routes/tasks.py`): fetch by id, 404 if absent, 403 if
foreign, otherwise delete the row (204, no body). -/
def delete_task (db : List Task) (task_id : Nat) (current_user_id : Nat) :
    Except HttpError Unit × List Task :=
  match findTask db task_id with
  | none => (.error taskNotFound, db)
  | some task =>
    if task.user_id != current_user_id then (.error taskForbidden, db)
    else (.ok (), db.eraseP (fun t => t.id == task_id))

/-- The `create_task` (`app/routes/tasks.py`): builds the row with
`user_id=current_user_id` taken from the JWT dependency; the request body
supplies only title/description/completed.  `freshId`/`now` stand for the
`uuid4()` and `utcnow()` defaults evaluated at insert time. -/
def create_task (db : List Task) (request : TaskCreateRequest)
    (current_user_id : Nat) (freshId now : Nat) : Task × List Task :=
  let task : Task :=
    { id := freshId
      title := request.title
      description := request.description
      completed := request.completed
      user_id := current_user_id
      created_at := now
      updated_at := now }
  (task, db ++ [task])

/-- C1: for each task-scoped handler (get, update, delete) with task id `T`
and authenticated user `U`: if no task with id `T` exists the result is
`taskNotFound` (404) and the table is unchanged; if a task with id `T` exists
with a different owner the result is `taskForbidden` (403), the task is
neither returned nor mutated, and the table is unchanged.  Existence is
checked before ownership, so a foreign task never yields 404 and a missing
task never yields 403. -/
theorem task_scoped_handlers_404_then_403 (db : List Task) (T U : Nat)
    (r : TaskUpdateRequest) :
    (findTask db T = none →
      get_task db T U = .error taskNotFound ∧
      update_task db T r U = (.error taskNotFound, db) ∧
      delete_task db T U = (.error taskNotFound, db)) ∧
    (∀ t, findTask db T = some t → t.user_id ≠ U →
      get_task db T U = .error taskForbidden ∧
      update_task db T r U = (.error taskForbidden, db) ∧
      delete_task db T U = (.error taskForbidden, db)) ∧
    taskNotFound.status = 404 ∧ taskForbidden.status = 403 := by
  refine ⟨fun h => ?_, fun t ht hne => ?_, rfl, rfl⟩
  · simp [get_task, update_task, delete_task, h]
  · have hb : (t.user_id != U) = true := by simpa using hne
    simp [get_task, update_task, delete_task, ht, hb]

/-- Closed instance of `task_scoped_handlers_404_then_403`: an empty table
gives 404; a table holding a task owned by user 7 gives 403 to user 2. -/
theorem task_scoped_handlers_404_then_403_witness :
    get_task ([] : List Task) 1 2 = .error taskNotFound ∧
    get_task [⟨1, "a", none, false, 7, 0, 0⟩] 1 2 = .error taskForbidden := by
  refine ⟨((task_scoped_handlers_404_then_403 [] 1 2 ⟨none, none, none⟩).1 (by decide)).1,
    (((task_scoped_handlers_404_then_403 [⟨1, "a", none, false, 7, 0, 0⟩] 1 2
      ⟨none, none, none⟩).2.1 ⟨1, "a", none, false, 7, 0, 0⟩ (by decide) (by decide)).1)⟩

/-- C2: the created task's owner is always the authenticated user id from the
token dependency; the request body (any title/description/completed) has no
influence on it, and the row appended to the table is exactly the returned
task. -/
theorem create_task_owner_is_token_user (db : List Task)
    (request : TaskCreateRequest) (uid freshId now : Nat) :
    (create_task db request uid freshId now).1.user_id = uid ∧
    (create_task db request uid freshId now).2 =
      db ++ [(create_task db request uid freshId now).1] := by
  exact ⟨rfl, rfl⟩

/-- Row of the `users` table (`app/models/user.py`); `email` carries a
store-level `unique=True` constraint. -/
structure User where
  id : Nat
  email : String
  password_hash : String
  created_at : Nat
deriving Repr, DecidableEq

/-- The `HTTPException(401, "Invalid email or password")`: the single generic
failure raised by `login`. -/
def invalidCredentials : HttpError := ⟨401, "Invalid email or password"⟩

/-- The `HTTPException(409, "Email already registered")` from `register`. -/
def emailAlreadyRegistered : HttpError := ⟨409, "Email already registered"⟩

/-- An exception that escapes a route handler uncaught; FastAPI maps it to a
generic 500 response. -/
def internalServerError : HttpError := ⟨500, "Internal Server Error"⟩

/-- The `AuthResponse` returned by a successful `login`. -/
structure AuthResponse where
  access_token : String
  token_type : String
  user : User
deriving Repr, DecidableEq

/-- The `select(User).where(User.email == email)` followed by `.first()`. -/
def find_user_by_email (db : List User) (email : String) : Option User :=
  db.find? (fun u => u.email == email)

/-- The `login` (`app/routes/auth.py`): look up by email; if the user is absent OR
password verification fails, the one `HTTPException(401, "Invalid email or
password")` is raised; otherwise issue a token.  The bcrypt comparison and the
JWT signing are external primitives, passed in as `verify_password` and
`create_access_token`. -/
def login (verify_password : String → String → Bool)
    (create_access_token : Nat → String) (db : List User)
    (email password : String) : Except HttpError AuthResponse :=
  match find_user_by_email db email with
  | none => .error invalidCredentials
  | some user =>
    if verify_password password user.password_hash then
      .ok ⟨create_access_token user.id, "bearer", user⟩
    else .error invalidCredentials

/-- Store-level error raised by the database engine itself. -/
inductive DbError
  | uniqueViolation
deriving Repr, DecidableEq

/-- INSERT into `users`: `User.email` is declared `unique=True`
(`app/models/user.py`), so the store rejects a row whose email already exists
with an integrity error. -/
def insert_user (db : List User) (u : User) : Except DbError (List User) :=
  if db.any (fun v => v.email == u.email) then .error .uniqueViolation
  else .ok (db ++ [u])

/-- The `register` (`app/routes/auth.py`), with the duplicate-email read-check and
the INSERT seeing possibly different snapshots of the `users` table:
`dbCheck` is the table at the `SELECT ... WHERE email` read-check and
`dbInsert` the table at commit time (they differ exactly when a concurrent
request inserts the same email in between).  The handler raises 409 only from
the read-check; it has no try/except around the commit, so a store-level
uniqueness violation escapes uncaught and surfaces as a 500, not a 409.
`hash_password` stands for the salted bcrypt primitive. -/
def registerRaced (hash_password : String → String)
    (dbCheck dbInsert : List User) (email password : String)
    (freshId now : Nat) : Except HttpError (List User × User) :=
  if (find_user_by_email dbCheck email).isSome then
    .error emailAlreadyRegistered
  else
    let user : User := ⟨freshId, email, hash_password password, now⟩
    match insert_user dbInsert user with
    | .ok db2 => .ok (db2, user)
    | .error _ => .error internalServerError

/-- The `register` in a single-request (race-free) run: the read-check and the
INSERT see the same table snapshot. -/
def register (hash_password : String → String) (db : List User)
    (email password : String) (freshId now : Nat) :
    Except HttpError (List User × User) :=
  registerRaced hash_password db db email password freshId now

/-- C3: the login failure for an unknown email and the failure for a known
email with a non-matching password are the same result: the single
`invalidCredentials` value, status 401, detail "Invalid email or password" —
the two runs are indistinguishable to the client. -/
theorem login_failures_indistinguishable
    (verify_password : String → String → Bool)
    (create_access_token : Nat → String) (db : List User)
    (e₁ p₁ e₂ p₂ : String)
    (h₁ : find_user_by_email db e₁ = none)
    (h₂ : ∀ u, find_user_by_email db e₂ = some u →
      verify_password p₂ u.password_hash = false) :
    login verify_password create_access_token db e₁ p₁ = .error invalidCredentials ∧
    login verify_password create_access_token db e₂ p₂ = .error invalidCredentials ∧
    login verify_password create_access_token db e₁ p₁ =
      login verify_password create_access_token db e₂ p₂ ∧
    invalidCredentials.status = 401 ∧
    invalidCredentials.detail = "Invalid email or password" := by
  have hA : login verify_password create_access_token db e₁ p₁ =
      .error invalidCredentials := by
    simp [login, h₁]
  have hB : login verify_password create_access_token db e₂ p₂ =
      .error invalidCredentials := by
    cases hfind : find_user_by_email db e₂ with
    | none => simp [login, hfind]
    | some u => simp [login, hfind, h₂ u hfind]
  exact ⟨hA, hB, hA.trans hB.symm, rfl, rfl⟩

/-- Closed instance of `login_failures_indistinguishable`: one registered user
`a@x.com`; login as unknown `b@x.com` and as `a@x.com` with a rejected
password both produce `invalidCredentials`. -/
theorem login_failures_indistinguishable_witness :
    login (fun _ _ => false) (fun _ => "tok") [⟨1, "a@x.com", "H", 0⟩]
      "b@x.com" "pw" = .error invalidCredentials ∧
    login (fun _ _ => false) (fun _ => "tok") [⟨1, "a@x.com", "H", 0⟩]
      "a@x.com" "pw" = .error invalidCredentials := by
  have h := login_failures_indistinguishable (fun _ _ => false) (fun _ => "tok")
    [⟨1, "a@x.com", "H", 0⟩] "b@x.com" "pw" "a@x.com" "pw"
    (by decide) (fun u _ => rfl)
  exact ⟨h.1, h.2.1⟩

theorem find_user_none_any_false (db : List User) (e : String)
    (h : find_user_by_email db e = none) :
    db.any (fun v => v.email == e) = false := by
  induction db with
  | nil => rfl
  | cons u rest ih =>
    unfold find_user_by_email at h
    rw [List.find?_cons] at h
    cases hu : (u.email == e) with
    | true => simp [hu] at h
    | false =>
      simp only [hu] at h
      simp [List.any_cons, hu, ih h]

theorem find_user_append (db₁ db₂ : List User) (e : String)
    (h : find_user_by_email db₁ e = none) :
    find_user_by_email (db₁ ++ db₂) e = find_user_by_email db₂ e := by
  unfold find_user_by_email at h ⊢
  simp [List.find?_append, h]

/-- C4 counterexample: a second registration of `a@x.com` racing with the
first — the duplicate row lands between the handler's read-check and its
INSERT — hits the store uniqueness constraint, which the handler does not
catch: the outcome is a 500 internal error, not the 409 `DuplicateEmail`, so
the 409 is not guaranteed race-safely by the store constraint. -/
theorem register_race_not_409 :
    registerRaced (fun p => p) [] [⟨1, "a@x.com", "pw1", 0⟩]
      "a@x.com" "pw2" 2 1 = .error internalServerError ∧
    internalServerError ≠ emailAlreadyRegistered := by
  exact ⟨rfl, by decide⟩

/-- C4 (amended): in race-free runs, registering an email a second time after
a successful first registration always fails with the 409
`emailAlreadyRegistered` and creates no second user (the table is returned
unchanged only on success; an error run commits nothing), regardless of
either password.  The 409 is produced by the handler's prior read-check, not
by the store-level uniqueness constraint. -/
theorem register_duplicate_email_409 (hash_password : String → String)
    (db : List User) (e p₁ p₂ : String) (f₁ n₁ f₂ n₂ : Nat)
    (h : find_user_by_email db e = none) :
    register hash_password db e p₁ f₁ n₁ =
      .ok (db ++ [⟨f₁, e, hash_password p₁, n₁⟩], ⟨f₁, e, hash_password p₁, n₁⟩) ∧
    register hash_password (db ++ [⟨f₁, e, hash_password p₁, n₁⟩]) e p₂ f₂ n₂ =
      .error emailAlreadyRegistered ∧
    emailAlreadyRegistered.status = 409 := by
  refine ⟨?_, ?_, rfl⟩
  · simp [register, registerRaced, insert_user, h, find_user_none_any_false db e h]
  · have hfind : find_user_by_email (db ++ [⟨f₁, e, hash_password p₁, n₁⟩]) e =
        some ⟨f₁, e, hash_password p₁, n₁⟩ := by
      rw [find_user_append db _ e h]
      simp [find_user_by_email]
    simp [register, registerRaced, hfind]

/-- Closed instance of `register_duplicate_email_409`: registering `a@x.com`
into an empty table succeeds, and registering it again yields the 409. -/
theorem register_duplicate_email_409_witness :
    register (fun p => p) [] "a@x.com" "pw1" 1 0 =
      .ok ([⟨1, "a@x.com", "pw1", 0⟩], ⟨1, "a@x.com", "pw1", 0⟩) ∧
    register (fun p => p) [⟨1, "a@x.com", "pw1", 0⟩] "a@x.com" "pw2" 2 1 =
      .error emailAlreadyRegistered := by
  have h := register_duplicate_email_409 (fun p => p) [] "a@x.com" "pw1" "pw2"
    1 0 2 1 (by decide)
  exact ⟨h.1, h.2.1⟩

/-- The SQL `ORDER BY created_at DESC` ordering on task rows. -/
def createdDesc (a b : Task) : Prop := b.created_at ≤ a.created_at

instance : DecidableRel createdDesc := fun a b => Nat.decLe b.created_at a.created_at

instance : IsTotal Task createdDesc :=
  ⟨fun a b => Nat.le_total b.created_at a.created_at⟩

instance : IsTrans Task createdDesc :=
  ⟨fun _ _ _ hab hbc => Nat.le_trans hbc hab⟩

/-- The filtered query of `list_tasks`: `WHERE user_id = current_user_id`,
then `WHERE completed = completed` when the filter is supplied.  The handler
counts this set for `total` before applying ordering and pagination. -/
def filteredTasks (db : List Task) (current_user_id : Nat)
    (completed : Option Bool) : List Task :=
  let base := db.filter (fun t => t.user_id == current_user_id)
  match completed with
  | none => base
  | some b => base.filter (fun t => t.completed == b)

/-- The `TaskListResponse` (`app/models/responses.py`): page of tasks plus
pagination metadata. -/
structure TaskListResponse where
  tasks : List Task
  total : Nat
  limit : Nat
  offset : Nat
deriving Repr, DecidableEq

/-- The `list_tasks` (`app/routes/tasks.py`): count the filtered set, then order
by `created_at` descending, skip `offset` rows and return at most `limit`
rows, echoing `limit`/`offset` back. -/
def list_tasks (db : List Task) (current_user_id : Nat)
    (completed : Option Bool) (limit offset : Nat) : TaskListResponse :=
  let filtered := filteredTasks db current_user_id completed
  let total := filtered.length
  let ordered := List.insertionSort createdDesc filtered
  { tasks := (ordered.drop offset).take limit
    total := total
    limit := limit
    offset := offset }

/-- C5: with `N` tasks matching the user and filter, a list request with
`limit = L` (1 ≤ L ≤ 100) and `offset = O` returns exactly `min L (N - O)`
tasks (`Nat` subtraction: this is `min(L, max(0, N − O))`), sorted by
`created_at` descending, and the reported `total` is `N` regardless of
`L` and `O`. -/
theorem list_tasks_pagination (db : List Task) (uid : Nat)
    (completed : Option Bool) (L O : Nat) (hL₁ : 1 ≤ L) (hL₂ : L ≤ 100) :
    (list_tasks db uid completed L O).total =
      (filteredTasks db uid completed).length ∧
    (list_tasks db uid completed L O).tasks.length =
      min L ((filteredTasks db uid completed).length - O) ∧
    List.Sorted createdDesc (list_tasks db uid completed L O).tasks := by
  refine ⟨rfl, ?_, ?_⟩
  · simp [list_tasks, List.length_take, List.length_drop,
      List.length_insertionSort]
  · have hs : List.Sorted createdDesc
        (List.insertionSort createdDesc (filteredTasks db uid completed)) :=
      List.sorted_insertionSort createdDesc _
    exact hs.sublist ((List.take_sublist _ _).trans (List.drop_sublist _ _))

/-- Closed instance of `list_tasks_pagination`: three matching tasks,
`limit = 2`, `offset = 1` returns `min 2 (3 - 1) = 2` tasks and
`total = 3`. -/
theorem list_tasks_pagination_witness :
    1 ≤ 2 ∧
    (list_tasks [⟨1, "a", none, false, 7, 3, 3⟩, ⟨2, "b", none, false, 7, 1, 1⟩,
      ⟨3, "c", none, false, 7, 2, 2⟩] 7 none 2 1).total = 3 ∧
    (list_tasks [⟨1, "a", none, false, 7, 3, 3⟩, ⟨2, "b", none, false, 7, 1, 1⟩,
      ⟨3, "c", none, false, 7, 2, 2⟩] 7 none 2 1).tasks.length = 2 := by
  have h := list_tasks_pagination
    [⟨1, "a", none, false, 7, 3, 3⟩, ⟨2, "b", none, false, 7, 1, 1⟩,
      ⟨3, "c", none, false, 7, 2, 2⟩] 7 none 2 1 (by decide) (by decide)
  refine ⟨by decide, ?_, ?_⟩
  · simpa using h.1
  · simpa using h.2.1

theorem find?_replace (p : Task → Bool) (u : Task) (hu : p u = true)
    (db : List Task) (t : Task) (h : db.find? p = some t) :
    (db.map (fun x => if p x then u else x)).find? p = some u := by
  induction db with
  | nil => simp at h
  | cons a rest ih =>
    rw [List.find?_cons] at h
    cases ha : p a with
    | true => simp [ha, hu]
    | false =>
      simp only [ha] at h
      simp [ha, ih h]

/-- C6: updating an owned task applies exactly the provided fields: an
omitted (`none`) title/description/completed keeps the stored value, an
explicitly provided one — including `false` and the empty string — is
applied, and `id`, `user_id`, `created_at` are unchanged; the handler
returns the updated row and stores it in the table. -/
theorem update_task_partial_frame (db : List Task) (tid uid : Nat)
    (req : TaskUpdateRequest) (t : Task)
    (hfind : findTask db tid = some t) (hown : t.user_id = uid) :
    (update_task db tid req uid).1 = .ok (applyUpdate t req) ∧
    findTask (update_task db tid req uid).2 tid = some (applyUpdate t req) ∧
    (req.title = none → (applyUpdate t req).title = t.title) ∧
    (∀ s, req.title = some s → (applyUpdate t req).title = s) ∧
    (req.description = none → (applyUpdate t req).description = t.description) ∧
    (∀ s, req.description = some s → (applyUpdate t req).description = some s) ∧
    (req.completed = none → (applyUpdate t req).completed = t.completed) ∧
    (∀ b, req.completed = some b → (applyUpdate t req).completed = b) ∧
    (applyUpdate t req).id = t.id ∧
    (applyUpdate t req).user_id = t.user_id ∧
    (applyUpdate t req).created_at = t.created_at := by
  have hfind' : db.find? (fun x => x.id == tid) = some t := hfind
  have hid0 := List.find?_some hfind'
  have hid : (t.id == tid) = true := hid0
  have hu : ((applyUpdate t req).id == tid) = true := hid
  refine ⟨?_, ?_, ?_, ?_, ?_, ?_, ?_, ?_, rfl, rfl, rfl⟩
  · simp [update_task, hfind, hown]
  · unfold update_task
    rw [hfind]
    dsimp only
    rw [hown]
    simp only [bne_self_eq_false, Bool.false_eq_true, if_false]
    exact find?_replace (fun x => x.id == tid) (applyUpdate t req) hu db t hfind
  · intro h; simp [applyUpdate, h]
  · intro s h; simp [applyUpdate, h]
  · intro h; simp [applyUpdate, h]
  · intro s h; simp [applyUpdate, h]
  · intro h; simp [applyUpdate, h]
  · intro b h; simp [applyUpdate, h]

/-- Closed instance of `update_task_partial_frame`: title, empty-string
description and `false` are all applied to an owned task. -/
theorem update_task_partial_frame_witness :
    (update_task [⟨1, "Old", some "od", true, 7, 3, 4⟩] 1
        ⟨some "New", some "", some false⟩ 7).1 =
      .ok (applyUpdate ⟨1, "Old", some "od", true, 7, 3, 4⟩
        ⟨some "New", some "", some false⟩) ∧
    (applyUpdate ⟨1, "Old", some "od", true, 7, 3, 4⟩
        ⟨some "New", some "", some false⟩).title = "New" ∧
    (applyUpdate ⟨1, "Old", some "od", true, 7, 3, 4⟩
        ⟨some "New", some "", some false⟩).description = some "" ∧
    (applyUpdate ⟨1, "Old", some "od", true, 7, 3, 4⟩
        ⟨some "New", some "", some false⟩).completed = false := by
  have h := update_task_partial_frame [⟨1, "Old", some "od", true, 7, 3, 4⟩]
    1 7 ⟨some "New", some "", some false⟩ ⟨1, "Old", some "od", true, 7, 3, 4⟩
    (by decide) rfl
  exact ⟨h.1, h.2.2.2.1 "New" rfl, h.2.2.2.2.2.1 "" rfl,
    h.2.2.2.2.2.2.2.1 false rfl⟩

/-- C8 (code bug): no component of the repository refreshes `updated_at` on
update — the handler's partial update leaves it untouched (the source comment
defers to a PostgreSQL trigger, but `init_db` only runs
`SQLModel.metadata.create_all`, which creates no trigger, and no migration or
`onupdate` hook exists in the repository).  After any update the stored
`updated_at` equals its previous value, never a strictly later one; shown
universally and at the concrete failing input (task with `updated_at = 5`
updated with `completed := true`). -/
theorem update_task_updated_at_unchanged :
    (∀ (t : Task) (req : TaskUpdateRequest),
      (applyUpdate t req).updated_at = t.updated_at) ∧
    (update_task [⟨1, "Buy milk", none, false, 7, 5, 5⟩] 1
        ⟨none, none, some true⟩ 7).2 =
      [⟨1, "Buy milk", none, true, 7, 5, 5⟩] :=
  ⟨fun _ _ => rfl, by decide⟩

/-- C10: an update payload whose `description` is JSON `null` parses to the
same request value as one that omits the field (both are `none`), so the
stored description is left unchanged; consequently a task whose description
is non-null can never be reset to null through the update handler. -/
theorem update_null_description_unchanged :
    (∀ (t : Task) (req : TaskUpdateRequest), req.description = none →
      (applyUpdate t req).description = t.description) ∧
    (∀ (t : Task) (req : TaskUpdateRequest) (d : String),
      t.description = some d → (applyUpdate t req).description ≠ none) := by
  constructor
  · intro t req h
    simp [applyUpdate, h]
  · intro t req d h
    cases hd : req.description with
    | none => simp [applyUpdate, hd, h]
    | some v => simp [applyUpdate, hd]

/-- Closed instance of `update_null_description_unchanged`: a null/omitted
description leaves `some "d"` in place, and an update providing other fields
cannot null it out. -/
theorem update_null_description_unchanged_witness :
    (applyUpdate ⟨1, "a", some "d", false, 7, 0, 0⟩ ⟨none, none, none⟩).description
      = (Task.mk 1 "a" (some "d") false 7 0 0).description ∧
    (applyUpdate ⟨1, "a", some "d", false, 7, 0, 0⟩
      ⟨some "x", none, some true⟩).description ≠ none :=
  ⟨update_null_description_unchanged.1 ⟨1, "a", some "d", false, 7, 0, 0⟩
      ⟨none, none, none⟩ rfl,
    update_null_description_unchanged.2 ⟨1, "a", some "d", false, 7, 0, 0⟩
      ⟨some "x", none, some true⟩ "d" rfl⟩

/-- The `needle` occurs at the head of the second list. -/
def prefixAt : List Char → List Char → Bool
  | [], _ => true
  | _ :: _, [] => false
  | a :: as, b :: bs => a == b && prefixAt as bs

/-- The `needle` occurs somewhere in the list. -/
def containsSub (needle : List Char) : List Char → Bool
  | [] => needle.isEmpty
  | h :: tl => prefixAt needle (h :: tl) || containsSub needle tl

/-- Python's `needle in hay` on strings. -/
def strContains (hay needle : String) : Bool :=
  containsSub needle.data hay.data

/-- Python's `s.lower()` (ASCII case folding suffices for the library
messages involved). -/
def strLower (s : String) : String :=
  ⟨s.data.map Char.toLower⟩

/-- Outcome of a passlib verification call: a returned boolean, or the
`UnknownHashError` exception escaping the call. -/
inductive PasslibResult
  | ok (b : Bool)
  | unknownHashError
deriving Repr, DecidableEq

/-- Whether passlib's bcrypt handler identifies a string as a bcrypt hash
(modular-crypt prefixes; the context is configured with `schemes=["bcrypt"]`
and `bcrypt__default_ident="2b"`). -/
def identifiesAsBcrypt (hashed : String) : Bool :=
  prefixAt "$2b$".data hashed.data || prefixAt "$2a$".data hashed.data ||
    prefixAt "$2y$".data hashed.data

/-- Models the external passlib `CryptContext.verify`: a hash string which no
configured scheme identifies raises `UnknownHashError` (documented passlib
behaviour); an identified bcrypt hash yields the boolean outcome of the
bcrypt comparison, abstracted as `bcryptMatches`. -/
def crypt_context_verify (bcryptMatches : String → String → Bool)
    (secret hashed : String) : PasslibResult :=
  if identifiesAsBcrypt hashed then .ok (bcryptMatches secret hashed)
  else .unknownHashError

/-- The `verify_password` (`app/auth.py`): returns
`pwd_context.verify(plain_password, hashed_password)` directly, with no
try/except around the call. -/
def verify_password (bcryptMatches : String → String → Bool)
    (plain_password hashed_password : String) : PasslibResult :=
  crypt_context_verify bcryptMatches plain_password hashed_password

/-- C7 counterexample: on the malformed hash string `"not-a-hash"` the verify
operation does not return `false` — the `UnknownHashError` raised by passlib
escapes `verify_password` uncaught. -/
theorem verify_password_malformed_hash_raises :
    verify_password (fun _ _ => false) "password123" "not-a-hash" =
      .unknownHashError ∧
    PasslibResult.unknownHashError ≠ .ok false := by
  exact ⟨rfl, by decide⟩

/-- C7 (amended): for every plaintext and every hash string identified as a
bcrypt hash, `verify_password` returns a boolean (the bcrypt comparison
outcome); on a hash no scheme identifies it raises `UnknownHashError`
instead of returning `false`. -/
theorem verify_password_behaviour (bcryptMatches : String → String → Bool)
    (plain hashed : String) :
    (identifiesAsBcrypt hashed = true →
      verify_password bcryptMatches plain hashed =
        .ok (bcryptMatches plain hashed)) ∧
    (identifiesAsBcrypt hashed = false →
      verify_password bcryptMatches plain hashed = .unknownHashError) := by
  constructor <;> intro h <;>
    simp [verify_password, crypt_context_verify, h]

/-- Closed instance of `verify_password_behaviour`: a `$2b$` hash yields the
comparison's boolean. -/
theorem verify_password_behaviour_witness :
    identifiesAsBcrypt "$2b$12$abcdef" = true ∧
    verify_password (fun _ _ => true) "pw" "$2b$12$abcdef" = .ok true :=
  ⟨by decide,
    (verify_password_behaviour (fun _ _ => true) "pw" "$2b$12$abcdef").1
      (by decide)⟩

/-- Outcome classes of decoding a presented bearer token. -/
inductive TokenCondition
  | valid (sub : Option String)
  | expired
  | badSignature
  | malformed
deriving Repr, DecidableEq

/-- Models the external `jose.jwt.decode`: the claim set's `sub` entry for a
token that verifies, and otherwise a raised `JWTError` carrying the jose
library's message — `ExpiredSignatureError("Signature has expired.")`, the
signature failure `JWTError("Signature verification failed.")`, and
`JWTError("Not enough segments")` for an unparseable token. -/
def jwtDecode : TokenCondition → Except String (Option String)
  | .valid s => .ok s
  | .expired => .error "Signature has expired."
  | .badSignature => .error "Signature verification failed."
  | .malformed => .error "Not enough segments"

/-- Hexadecimal digit test for UUID characters. -/
def isHexDigit (c : Char) : Bool :=
  c.isDigit || "abcdefABCDEF".contains c

/-- The `uuid.UUID(s)` acceptance, restricted to the canonical 8-4-4-4-12 form
that `str(uuid4())` produces (tokens are issued with `"sub": str(user_id)`). -/
def isCanonicalUUID (s : String) : Bool :=
  s.length == 36 &&
  (List.range 36).all (fun i =>
    if i == 8 || i == 13 || i == 18 || i == 23 then s.data.getD i ' ' == '-'
    else isHexDigit (s.data.getD i ' '))

/-- The `HTTPException(401, "Token expired")`. -/
def tokenExpired : HttpError := ⟨401, "Token expired"⟩

/-- The `HTTPException(401, "Invalid token signature")`. -/
def tokenBadSignature : HttpError := ⟨401, "Invalid token signature"⟩

/-- The generic `credentials_exception`: `HTTPException(401, "Invalid token")`. -/
def credentialsException : HttpError := ⟨401, "Invalid token"⟩

/-- The `HTTPException(401, "Invalid token format (malformed user ID)")`. -/
def malformedUserId : HttpError := ⟨401, "Invalid token format (malformed user ID)"⟩

/-- The `get_current_user` (`app/auth.py`): decode the token; on a `JWTError`,
branch on the lowercased message — "expired" checked before "signature",
otherwise the generic credentials exception; a missing `sub` claim raises the
generic credentials exception (the `HTTPException` raised inside the `try` is
itself caught by the final `except Exception`); a `sub` that `UUID()` rejects
raises the malformed-user-ID message. -/
def get_current_user (c : TokenCondition) : Except HttpError String :=
  match jwtDecode c with
  | .error e =>
    let msg := strLower e
    if strContains msg "expired" then .error tokenExpired
    else if strContains msg "signature" then .error tokenBadSignature
    else .error credentialsException
  | .ok none => .error credentialsException
  | .ok (some s) =>
    if isCanonicalUUID s then .ok s else .error malformedUserId

/-- C9: every expired token yields a 401 whose detail contains "expired";
every bad-signature token a 401 whose detail contains "signature" (jose's
expiry message itself contains "signature", which is why the code checks
"expired" first); these two details are distinct from each other and from
the malformed-token and invalid-subject details. -/
theorem token_error_taxonomy :
    (get_current_user .expired = .error tokenExpired ∧
      strContains tokenExpired.detail "expired" = true) ∧
    (get_current_user .badSignature = .error tokenBadSignature ∧
      strContains tokenBadSignature.detail "signature" = true) ∧
    get_current_user .malformed = .error credentialsException ∧
    (∀ s, isCanonicalUUID s = false →
      get_current_user (.valid (some s)) = .error malformedUserId) ∧
    tokenExpired.detail ≠ tokenBadSignature.detail ∧
    tokenExpired.detail ≠ credentialsException.detail ∧
    tokenExpired.detail ≠ malformedUserId.detail ∧
    tokenBadSignature.detail ≠ credentialsException.detail ∧
    tokenBadSignature.detail ≠ malformedUserId.detail ∧
    credentialsException.detail ≠ malformedUserId.detail ∧
    tokenExpired.status = 401 ∧ tokenBadSignature.status = 401 := by
  refine ⟨⟨rfl, by decide⟩, ⟨rfl, by decide⟩, rfl,
    fun s h => ?_, by decide, by decide, by decide, by decide, by decide,
    by decide, rfl, rfl⟩
  simp [get_current_user, jwtDecode, h]

/-- Closed instance of `token_error_taxonomy`: the non-UUID subject `"zzz"`
yields the malformed-user-ID 401. -/
theorem token_error_taxonomy_witness :
    isCanonicalUUID "zzz" = false ∧
    get_current_user (.valid (some "zzz")) = .error malformedUserId :=
  ⟨by decide, token_error_taxonomy.2.2.2.1 "zzz" (by decide)⟩

end TodoApp
